import Mathlib

/-!
Verification of the doit-easily marketplace integration service.

The development shallowly embeds the Python source under `src/api/` into Lean:
Python strings become `List Char`, dictionaries with known keys become
structures with `Option` fields (a `none` field models an absent key),
remote procurement calls become oracle functions supplied through an
environment record, and the side effects performed by a handler are
collected into an explicit trace (`List Effect`).  Fallible remote reads
return `Except Unit (Option _)`: `.error ()` models an uncaught exception
raised by the underlying HTTP client, `.ok none` a 404, `.ok (some x)` a
successful fetch.
-/

/-- Python strings are embedded as lists of characters. -/
abbrev Str := List Char

/-- Shorthand for turning a Lean string literal into an embedded Python string. -/
def pyStr (s : String) : Str := s.data

/-! ## String splitting, as Python `str.split(sep)` for a one-character separator.

Python's `split` on a non-empty separator never returns an empty list:
`"".split("/") == [""]`, and every separator occurrence starts a new part. -/

/-- `pySplit c s` embeds Python `s.split(c)` for a single-character separator. -/
def pySplit (c : Char) : Str → List Str
  | [] => [[]]
  | a :: rest =>
    if a = c then
      [] :: pySplit c rest
    else
      match pySplit c rest with
      | [] => [[a]]
      | s :: ss => (a :: s) :: ss

theorem pySplit_ne_nil (c : Char) (s : Str) : pySplit c s ≠ [] := by
  cases s with
  | nil => simp [pySplit]
  | cons a rest =>
    simp only [pySplit]
    by_cases h : a = c
    · simp [h]
    · simp only [h, if_false]
      cases pySplit c rest <;> simp

/-- Splitting distributes over a separator occurrence: the parts of
`l₁ ++ c :: l₂` are the parts of `l₁` followed by the parts of `l₂`. -/
theorem pySplit_append (c : Char) (l₁ l₂ : Str) :
    pySplit c (l₁ ++ c :: l₂) = pySplit c l₁ ++ pySplit c l₂ := by
  induction l₁ with
  | nil => simp [pySplit]
  | cons a rest ih =>
    simp only [List.cons_append, pySplit]
    by_cases h : a = c
    · simp [h, ih]
    · have hne := pySplit_ne_nil c rest
      cases hrest : pySplit c rest with
      | nil => exact absurd hrest hne
      | cons s ss => simp [h, ih, hrest]

/-- A string containing no separator splits into a single part. -/
theorem pySplit_eq_single (c : Char) (s : Str) (h : c ∉ s) :
    pySplit c s = [s] := by
  induction s with
  | nil => simp [pySplit]
  | cons a rest ih =>
    simp only [List.mem_cons, not_or] at h
    have ha : a ≠ c := fun hac => h.1 hac.symm
    simp only [pySplit, ha, if_false]
    rw [ih h.2]

theorem getLastD_cons_default_irrel {α : Type} (y : α) (ys : List α) (a d : α) :
    (y :: ys).getLastD a = (y :: ys).getLastD d := by
  induction ys generalizing y with
  | nil => rfl
  | cons z zs ih => rw [List.getLastD_cons a y, List.getLastD_cons d y]

theorem getLast_append_of_ne_nil {α : Type} (l₁ l₂ : List α) (d : α)
    (h : l₂ ≠ []) : (l₁ ++ l₂).getLastD d = l₂.getLastD d := by
  induction l₁ generalizing d with
  | nil => rfl
  | cons a rest ih =>
    simp only [List.cons_append, List.getLastD_cons]
    rw [ih a]
    cases l₂ with
    | nil => exact absurd rfl h
    | cons y ys => exact getLastD_cons_default_irrel y ys a d

/-! ## Pure resource-name helpers from `src/api/procurement_api.py`. -/

/-- Python `startswith`: `hasPfx s p` is `s.startswith(p)`. -/
def hasPfx : Str → Str → Bool
  | _, [] => true
  | [], _ :: _ => false
  | a :: s, b :: t => a = b && hasPfx s t

theorem hasPfx_append (p s : Str) : hasPfx (p ++ s) p = true := by
  induction p with
  | nil => cases s <;> rfl
  | cons a rest ih => simp [hasPfx, ih]

theorem hasPfx_iff (s p : Str) : hasPfx s p = true ↔ ∃ t, s = p ++ t := by
  induction p generalizing s with
  | nil =>
    constructor
    · intro _
      exact ⟨s, rfl⟩
    · intro _
      cases s <;> rfl
  | cons b bt ih =>
    cases s with
    | nil =>
      simp only [hasPfx]
      constructor
      · intro h
        exact absurd h (by simp)
      · rintro ⟨t, ht⟩
        exact absurd ht (by simp)
    | cons a as =>
      simp only [hasPfx, Bool.and_eq_true, decide_eq_true_eq, ih,
        List.cons_append, List.cons.injEq]
      constructor
      · rintro ⟨hab, t, ht⟩
        exact ⟨t, hab, ht⟩
      · rintro ⟨t, hab, ht⟩
        exact ⟨hab, t, ht⟩

/-- `ProcurementApi.get_account_name`: builds
`providers/{project_id}/accounts/{account_id}`. -/
def get_account_name (project_id account_id : Str) : Str :=
  pyStr "providers/" ++ project_id ++ pyStr "/accounts/" ++ account_id

/-- `ProcurementApi.get_account_id`: strips the
`providers/{project_id}/accounts/` prefix when present, otherwise falls back
to the last `/`-separated segment; empty input yields the empty string. -/
def get_account_id (project_id name : Str) : Str :=
  if name = [] then []
  else
    let pfx := pyStr "providers/" ++ project_id ++ pyStr "/accounts/"
    if hasPfx name pfx then
      name.drop pfx.length
    else
      (pySplit '/' name).getLastD []

/-- `ProcurementApi._get_entitlement_name`: builds
`providers/{project_id}/entitlements/{entitlement_id}`. -/
def _get_entitlement_name (project_id entitlement_id : Str) : Str :=
  pyStr "providers/" ++ project_id ++ pyStr "/entitlements/" ++ entitlement_id

/-- `ProcurementApi.get_entitlement_id`: last `/`-separated segment of the
name; empty input yields the empty string. -/
def get_entitlement_id (name : Str) : Str :=
  if name = [] then []
  else (pySplit '/' name).getLastD []

/-- `ProcurementApi.list_entitlements` filter-string construction: collect
`state={state}` when `state` is truthy and `account={account_id}` when
`account_id` is truthy, join with a single space, `None` when no part. -/
def list_entitlements_filter (state : Str) (account_id : Option Str) : Option Str :=
  let filter_parts : List Str :=
    (if state ≠ [] then [pyStr "state=" ++ state] else []) ++
    (match account_id with
     | some a => if a ≠ [] then [pyStr "account=" ++ a] else []
     | none => [])
  if filter_parts = [] then none
  else some (List.intercalate (pyStr " ") filter_parts)

/-! ## Accounts and the approval evaluator (`is_account_approved`). -/

/-- One element of an account's `approvals` list; `.get` reads model the
Python `dict.get` returning `None` on an absent key. -/
structure Approval where
  name : Option Str
  state : Option Str
  deriving DecidableEq, Repr

/-- An account fetched from the procurement service.  `approvals = none`
models a dict without the `approvals` key. -/
structure Account where
  approvals : Option (List Approval)
  deriving DecidableEq, Repr

/-- `is_account_approved` from `src/api/procurement_api.py`: `none` models a
falsy (missing or empty) account; the first approval named `signup` decides,
with state `APPROVED` the only approving value. -/
def is_account_approved (account : Option Account) : Bool :=
  match account with
  | none => false
  | some acct =>
    match acct.approvals with
    | none => false
    | some approvals =>
      if approvals = [] then false
      else
        match approvals.find? (fun ap => ap.name = some (pyStr "signup")) with
        | none => false
        | some approval =>
          if approval.state = some (pyStr "PENDING") then false
          else if approval.state = some (pyStr "APPROVED") then true
          else false

/-! ## The entitlement event handler (`src/api/entitlement.py`). -/

/-- An entitlement dict fetched from the procurement service; a `none` field
models an absent key. -/
structure Entitlement where
  id : Option Str
  product : Option Str
  account : Option Str
  state : Option Str
  newPendingPlan : Option Str
  deriving DecidableEq, Repr

/-- Per-product configuration resolved by `settings.from_env(product)`:
each field is a `getattr` with the default used by the handler. -/
structure ProductSettings where
  event_topic : Option Str
  auto_approve_entitlements : Bool
  email_recipients : List Str
  slack_webhook : Option Str
  deriving DecidableEq, Repr

/-- The inbound event dict; `id = none` models a dict without an `id` key. -/
structure EventMsg where
  id : Option Str
  deriving DecidableEq, Repr

/-- Side effects a handler can perform against the outside world. -/
inductive Effect where
  | approveEntitlement (entitlement_id : Str)
  | approvePlanChange (entitlement_id plan : Str)
  | approveAccount (account_id : Str)
  | email (subject : Str) (entitlement : Entitlement)
  | slack (webhook_url : Str) (entitlement : Entitlement)
  | publish (topic : Str) (event : Str) (entitlement : Entitlement)
  deriving DecidableEq, Repr

/-- Oracles for the remote procurement service and the email transport.
`.error ()` models an exception escaping the underlying client (retries
exhausted), `.ok none` a 404, `.ok (some x)` a successful fetch.
`approve_entitlement_ok` / `approve_plan_change_ok` record whether the
corresponding remote write-back raises an `HttpError` after the retry
ceiling — such an exception is not caught by `handle_entitlement`, so it
aborts whatever follows the write and escapes the handler.
`email_raises` records whether `send_email` raises (the handler catches it). -/
structure Env where
  project_id : Str
  get_entitlement_r : Str → Except Unit (Option Entitlement)
  get_account_r : Str → Except Unit (Option Account)
  approve_entitlement_ok : Bool
  approve_plan_change_ok : Bool
  email_raises : Bool

/-- `ProcurementApi.get_entitlement`: guards against an empty id, then asks
the remote service. -/
def api_get_entitlement (env : Env) (entitlement_id : Str) :
    Except Unit (Option Entitlement) :=
  if entitlement_id = [] then .ok none else env.get_entitlement_r entitlement_id

/-- `ProcurementApi.get_account`: guards against an empty id, then asks the
remote service. -/
def api_get_account (env : Env) (account_id : Str) :
    Except Unit (Option Account) :=
  if account_id = [] then .ok none else env.get_account_r account_id

/-- `notify` from `src/api/entitlement.py`: publishes the
`{event, entitlement}` payload when the topic is truthy, logs otherwise;
publish exceptions are caught, so the caller always continues. -/
def notify (type : Str) (entitlement : Entitlement) (event_topic : Str) :
    List Effect :=
  if event_topic ≠ [] then [.publish event_topic type entitlement] else []

/-- `send_slack_message`: no-op on a falsy webhook URL, otherwise one POST
attempt; HTTP and request errors only affect the returned bool. -/
def send_slack_message (webhook_url : Str) (entitlement : Entitlement) :
    List Effect :=
  if webhook_url = [] then [] else [.slack webhook_url entitlement]

/-- The truthiness test Python applies to optional strings such as
`event_topic` and `slack_webhook`. -/
def optTruthy : Option Str → Bool
  | none => false
  | some s => s ≠ []

/-- `handle_entitlement` from `src/api/entitlement.py`, embedded as a trace
transformer.  Arguments mirror the Python signature (`publisher` is whether a
publisher client was supplied; `settings` is `Dynaconf.from_env`, with `none`
modelling a raised exception, which the handler catches).  The result is the
list of performed side effects together with `true` when the handler returned
normally and `false` when an exception escaped it. -/
def handle_entitlement (event : Option EventMsg) (event_type : Str)
    (env : Env) (settings : Str → Option ProductSettings)
    (publisher : Bool) : List Effect × Bool :=
  -- `if not event or "id" not in event`
  match event with
  | none => ([], true)
  | some ev =>
    match ev.id with
    | none => ([], true)
    | some entitlement_id =>
      -- `if not event_type`
      if event_type = [] then ([], true)
      else
        match api_get_entitlement env entitlement_id with
        | .error () => ([], false)
        | .ok none => ([], true)
        | .ok (some fetched) =>
          -- `entitlement["id"] = entitlement_id`
          let entitlement := { fetched with id := some entitlement_id }
          -- `if "product" not in entitlement`
          match entitlement.product with
          | none => ([], true)
          | some product_name =>
            -- `product_name.split(".")[0]`, then `settings.from_env(...)`,
            -- with any exception caught and turned into a return
            match settings ((pySplit '.' product_name).headD []) with
            | none => ([], true)
            | some product_settings =>
              -- `if "account" not in entitlement`
              match entitlement.account with
              | none => ([], true)
              | some account_ref =>
                let account_id := get_account_id env.project_id account_ref
                match api_get_account env account_id with
                | .error () => ([], false)
                | .ok account =>
                  if ¬ is_account_approved account then ([], true)
                  else
                    -- `if "state" not in entitlement`
                    match entitlement.state with
                    | none => ([], true)
                    | some entitlement_state =>
                      handle_entitlement_dispatch event_type entitlement_id
                        entitlement entitlement_state product_settings
                        publisher env.approve_entitlement_ok
                        env.approve_plan_change_ok
where
  /-- The `event_type`/`entitlement_state` dispatch chain at the end of
  `handle_entitlement`; any unlisted combination is a logged no-op.
  `approve_ok` / `plan_ok` are the write-back oracles from the environment:
  a raised write is recorded as attempted, aborts everything after the
  call site (the source does not catch it) and escapes the handler. -/
  handle_entitlement_dispatch (event_type : Str) (entitlement_id : Str)
      (entitlement : Entitlement) (entitlement_state : Str)
      (product_settings : ProductSettings) (publisher : Bool)
      (approve_ok plan_ok : Bool) :
      List Effect × Bool :=
    if event_type = pyStr "ENTITLEMENT_CREATION_REQUESTED" then
      if entitlement_state = pyStr "ENTITLEMENT_ACTIVATION_REQUESTED" then
        let notif_effects :=
          (if product_settings.email_recipients ≠ [] then
            [.email (pyStr "New Entitlement Creation Request") entitlement]
          else []) ++
          (match product_settings.slack_webhook with
           | some webhook_url =>
             if webhook_url ≠ [] then
               send_slack_message webhook_url entitlement
             else []
           | none => [])
        if product_settings.auto_approve_entitlements then
          -- `procurement_api.approve_entitlement(entitlement_id)`: on a
          -- raised HttpError the email/Slack sends below it never run
          if approve_ok then
            ([.approveEntitlement entitlement_id] ++ notif_effects, true)
          else
            ([.approveEntitlement entitlement_id], false)
        else (notif_effects, true)
      else ([], true)
    else if event_type = pyStr "ENTITLEMENT_ACTIVE" then
      if entitlement_state = pyStr "ENTITLEMENT_ACTIVE" then
        if optTruthy product_settings.event_topic ∧ publisher then
          (notify (pyStr "create") entitlement
            (product_settings.event_topic.getD []), true)
        else ([], true)
      else ([], true)
    else if event_type = pyStr "ENTITLEMENT_PLAN_CHANGE_REQUESTED" then
      if entitlement_state = pyStr "ENTITLEMENT_PENDING_PLAN_CHANGE_APPROVAL" then
        match entitlement.newPendingPlan with
        | some plan =>
          -- `approve_entitlement_plan_change` raises ValueError on an
          -- empty plan before issuing the remote call; a raised remote
          -- write is attempted and then escapes the handler
          if plan = [] then ([], false)
          else if plan_ok then ([.approvePlanChange entitlement_id plan], true)
          else ([.approvePlanChange entitlement_id plan], false)
        | none => ([], true)
      else ([], true)
    else if event_type = pyStr "ENTITLEMENT_PLAN_CHANGED" then
      if entitlement_state = pyStr "ENTITLEMENT_ACTIVE" then
        if optTruthy product_settings.event_topic ∧ publisher then
          (notify (pyStr "upgrade") entitlement
            (product_settings.event_topic.getD []), true)
        else ([], true)
      else ([], true)
    else if event_type = pyStr "ENTITLEMENT_PLAN_CHANGE_CANCELLED" then
      ([], true)
    else if event_type = pyStr "ENTITLEMENT_CANCELLED" then
      if entitlement_state = pyStr "ENTITLEMENT_CANCELLED" then
        if optTruthy product_settings.event_topic ∧ publisher then
          (notify (pyStr "destroy") entitlement
            (product_settings.event_topic.getD []), true)
        else ([], true)
      else ([], true)
    else if event_type = pyStr "ENTITLEMENT_PENDING_CANCELLATION" then
      ([], true)
    else if event_type = pyStr "ENTITLEMENT_CANCELLATION_REVERTED" then
      ([], true)
    else if event_type = pyStr "ENTITLEMENT_DELETED" then
      ([], true)
    else if event_type = pyStr "ENTITLEMENT_OFFER_ACCEPTED" then
      if entitlement_state = pyStr "ENTITLEMENT_ACTIVATION_REQUESTED" then
        ((if product_settings.email_recipients ≠ [] then
            [.email (pyStr "New Entitlement Offer Accepted") entitlement]
          else []), true)
      else ([], true)
    else ([], true)

/-! ## The webhook endpoint `POST /v1/notification` (`src/api/api.py`). -/

/-- A JSON value, as produced by Flask's `request.json` and `json.loads`. -/
inductive Json where
  | null
  | bool (b : Bool)
  | num (n : Int)
  | str (s : Str)
  | arr (elems : List Json)
  | obj (fields : List (Str × Json))

/-- Python truthiness of a JSON value (`if not envelope`). -/
def jsonTruthy : Json → Bool
  | .null => false
  | .bool b => b
  | .num n => n ≠ 0
  | .str s => s ≠ []
  | .arr elems => !elems.isEmpty
  | .obj fields => !fields.isEmpty

/-- Key lookup in a JSON object (`"k" in d` / `d["k"]`); JSON objects from
`json.loads` have unique keys, so first match suffices. -/
def jsonGet (fields : List (Str × Json)) (key : Str) : Option Json :=
  (fields.find? (fun f => f.1 = key)).map (·.2)

/-- A downstream dispatch performed by the webhook handler. -/
inductive Call where
  | entitlement (payload eventType : Json)
  | account (payload : Json)

/-- `handle_subscription_message` from `src/api/api.py`.

`body = none` models a request whose JSON parsing raises (caught by the
outer `except`); `decodeData` models `base64.b64decode` + `.decode("utf-8")`
+ `.strip()` + `json.loads` on the `data` field, with `none` a raised
exception.  The result is the HTTP status, the response body, and the list
of downstream handler dispatches.  For a decoded payload that is not a JSON
object, Python's `in`/indexing either misses or raises `TypeError`; in every
such case the outer `except` acknowledges with no dispatch, which is the
value modelled here. -/
def handle_subscription_message (body : Option Json)
    (decodeData : Json → Option Json) : Nat × Json × List Call :=
  match body with
  | none => (200, Json.obj [], [])
  | some envelope =>
    -- `if not envelope`
    if ¬ jsonTruthy envelope then (200, Json.obj [], [])
    else
      -- `if not isinstance(envelope, Dict) or "message" not in envelope`
      match envelope with
      | .obj env_fields =>
        match jsonGet env_fields (pyStr "message") with
        | none => (200, Json.obj [], [])
        | some message =>
          -- `if not isinstance(message, Dict) or "data" not in message`
          match message with
          | .obj msg_fields =>
            match jsonGet msg_fields (pyStr "data") with
            | none => (200, Json.obj [], [])
            | some message_data =>
              match decodeData message_data with
              | none => (200, Json.obj [], [])
              | some message_json =>
                match message_json with
                | .obj json_fields =>
                  match jsonGet json_fields (pyStr "entitlement"),
                        jsonGet json_fields (pyStr "eventType") with
                  | some ent, some event_type =>
                    (200, Json.obj [], [.entitlement ent event_type])
                  | _, _ =>
                    match jsonGet json_fields (pyStr "account") with
                    | some acct => (200, Json.obj [], [.account acct])
                    | none => (200, Json.obj [], [])
                | _ => (200, Json.obj [], [])
          | _ => (200, Json.obj [], [])
      | _ => (200, Json.obj [], [])

/-! ## Marketplace JWT verification and the activation flow
(`src/api/api.py`). -/

/-- The fixed trusted certificate URL (`GOOGLE_CERT_URL`). -/
def GOOGLE_CERT_URL : Str :=
  pyStr "https://www.googleapis.com/robot/v1/metadata/x509/cloud-commerce-partner@system.gserviceaccount.com"

/-- A decoded claim set; claim values relevant here are strings. -/
abbrev Claims := List (Str × Str)

/-- First-match claim lookup (`dict.get`). -/
def claimGet (claims : Claims) (key : Str) : Option Str :=
  (claims.find? (fun f => f.1 = key)).map (·.2)

/-- Oracles describing how the JWT library, the certificate fetch and the
signature check behave on one concrete token.  `none`/`false` model the
corresponding library call raising. -/
structure JwtEnv where
  /-- `jwt.get_unverified_header` succeeds. -/
  header_ok : Bool
  /-- `header.get("kid")`. -/
  kid : Option Str
  /-- Unverified `jwt.decode(..., verify_signature=False)` payload;
  `none` models a decode exception. -/
  unverified_claims : Option Claims
  /-- Certificate table fetched from the trusted URL, keyed by key-id;
  `none` models a network or JSON failure. -/
  certs : Option (List (Str × Str))
  /-- Verified `jwt.decode` with the certificate's public key; `none` models
  a signature, audience or expiry failure (or an unparsable certificate). -/
  verified_claims : Option Claims

/-- Distinct failure modes of `verify_marketplace_jwt`; every one surfaces
as a raised exception to the caller. -/
inductive AuthErr where
  | exc
  | invalidIssuer
  | certNotFound
  | missingSub
  deriving DecidableEq, Repr

/-- `verify_marketplace_jwt` from `src/api/api.py`: extract the key-id and
the unverified issuer, insist on the fixed trusted URL, fetch the
certificate set, locate the certificate for the key-id, re-verify the token
against its public key, and reject an empty/missing `sub` claim. -/
def verify_marketplace_jwt (env : JwtEnv) : Except AuthErr Claims :=
  if ¬ env.header_ok then .error .exc
  else
    match env.unverified_claims with
    | none => .error .exc
    | some unverified =>
      -- `unverified_decoded["iss"]` raises KeyError when absent
      match claimGet unverified (pyStr "iss") with
      | none => .error .exc
      | some url =>
        if url ≠ GOOGLE_CERT_URL then .error .invalidIssuer
        else
          match env.certs with
          | none => .error .exc
          | some cert_table =>
            -- `cert = certs.get(key_id); if not cert`
            let cert : Option Str :=
              match env.kid with
              | some k => claimGet cert_table k
              | none => none
            match cert with
            | none => .error .certNotFound
            | some c =>
              if c = [] then .error .certNotFound
              else
                match env.verified_claims with
                | none => .error .exc
                | some decoded =>
                  -- `if not decoded.get("sub")`
                  match claimGet decoded (pyStr "sub") with
                  | none => .error .missingSub
                  | some s =>
                    if s = [] then .error .missingSub
                    else .ok decoded

/-- Environment of the `/activate` route: the session, the request token,
the JWT oracles, the global settings flag, and procurement oracles.
`list_entitlements_names = none` models the lookup in
`get_entitlement_id_for_account` raising (caught there, yielding `None`);
`some names` is the `name` field of each returned entitlement.
`approve_account_ok`/`approve_entitlement_ok` model whether the remote
write-backs raise after being attempted. -/
structure ActivateEnv where
  session_claims : Option Claims
  form_token : Bool
  jwt : JwtEnv
  auto_approve_entitlements : Bool
  list_entitlements_names : Option (List Str)
  approve_account_ok : Bool
  approve_entitlement_ok : Bool

/-- `get_entitlement_id_for_account` from `src/api/api.py`: iterate the
returned entitlements keeping the id derived from each `name`, so the last
one wins; any exception yields `None`. -/
def get_entitlement_id_for_account (env : ActivateEnv) : Option Str :=
  match env.list_entitlements_names with
  | none => none
  | some names =>
    names.foldl (fun _ n => some (get_entitlement_id n)) none

/-- The `/activate` route from `src/api/api.py`, as (HTTP status, performed
procurement effects).  Claims come from the session when they carry a `sub`,
else from verifying the request token; verification failure or a missing
token yields 401 with no effect.  Afterwards the account is approved, and
when `auto_approve_entitlements` is set and a truthy entitlement id was
found, that entitlement is approved.  An exception from a procurement call
propagates (Flask turns it into a 500) after the call was attempted. -/
def activate (env : ActivateEnv) : Nat × List Effect :=
  let viaToken : Except Unit Claims :=
    if env.form_token then
      match verify_marketplace_jwt env.jwt with
      | .ok c => .ok c
      | .error _ => .error ()
    else .error ()
  let claimsRes : Except Unit Claims :=
    match env.session_claims with
    | some c => if (claimGet c (pyStr "sub")).isSome then .ok c else viaToken
    | none => viaToken
  match claimsRes with
  | .error () => (401, [])
  | .ok claims =>
    let account_id := (claimGet claims (pyStr "sub")).getD []
    -- `approve_account` raises ValueError on an empty account id
    if account_id = [] then (500, [])
    else if ¬ env.approve_account_ok then (500, [.approveAccount account_id])
    else
      match get_entitlement_id_for_account env with
      | some entitlement_id =>
        -- `if settings.auto_approve_entitlements and entitlement_id`
        if env.auto_approve_entitlements ∧ entitlement_id ≠ [] then
          if env.approve_entitlement_ok then
            (200, [.approveAccount account_id,
                   .approveEntitlement entitlement_id])
          else
            (500, [.approveAccount account_id,
                   .approveEntitlement entitlement_id])
        else (200, [.approveAccount account_id])
      | none => (200, [.approveAccount account_id])

/-! ## Trace predicates used by the claims. -/

/-- Is the effect a remote entitlement approval? -/
def isApprove : Effect → Bool
  | .approveEntitlement _ => true
  | _ => false

/-- Is the effect an email or Slack notification attempt? -/
def isNotification : Effect → Bool
  | .email _ _ => true
  | .slack _ _ => true
  | _ => false

/-- Is the effect a change-event publish? -/
def isPublish : Effect → Bool
  | .publish _ _ _ => true
  | _ => false

/-! ## Claim theorems. -/

/-- The id extracted from a built entitlement name is the last
`/`-separated segment of the raw entitlement id. -/
theorem entitlement_name_last (project_id entitlement_id : Str) :
    get_entitlement_id (_get_entitlement_name project_id entitlement_id)
      = (pySplit '/' entitlement_id).getLastD [] := by
  have e1 : pyStr "providers/" = pyStr "providers" ++ ['/'] := rfl
  have e2 : pyStr "/entitlements/" =
      ['/'] ++ (pyStr "entitlements" ++ ['/']) := rfl
  have hshape : _get_entitlement_name project_id entitlement_id =
      pyStr "providers" ++ '/' ::
        (project_id ++ '/' ::
          (pyStr "entitlements" ++ '/' :: entitlement_id)) := by
    rw [_get_entitlement_name, e1, e2]
    simp [List.append_assoc]
  have hne : _get_entitlement_name project_id entitlement_id ≠ [] := by
    rw [hshape]
    exact List.append_ne_nil_of_left_ne_nil (by decide) _
  rw [get_entitlement_id, if_neg hne, hshape]
  rw [pySplit_append, pySplit_append, pySplit_append]
  rw [getLast_append_of_ne_nil _ _ _ (by
    exact List.append_ne_nil_of_left_ne_nil (pySplit_ne_nil '/' project_id) _)]
  rw [getLast_append_of_ne_nil _ _ _ (by
    exact List.append_ne_nil_of_left_ne_nil (pySplit_ne_nil '/' (pyStr "entitlements")) _)]
  exact getLast_append_of_ne_nil _ _ _ (pySplit_ne_nil '/' entitlement_id)

/-- Claim C10: resource-name construction and id extraction round-trip.
For every project id and account id,
`get_account_id (get_account_name account_id) = account_id` exactly; for an
entitlement id without `/`, `get_entitlement_id` applied to
`_get_entitlement_name entitlement_id` returns the id, and in general it
returns the final `/`-separated segment of the id. -/
theorem roundtrip_resource_names (project_id account_id entitlement_id : Str) :
    get_account_id project_id (get_account_name project_id account_id)
      = account_id ∧
    (('/' : Char) ∉ entitlement_id →
      get_entitlement_id (_get_entitlement_name project_id entitlement_id)
        = entitlement_id) ∧
    get_entitlement_id (_get_entitlement_name project_id entitlement_id)
      = (pySplit '/' entitlement_id).getLastD [] := by
  have hpne : pyStr "providers/" ≠ [] := by decide
  refine ⟨?_, ?_, ?_⟩
  · -- account round-trip: the name is exactly the expected prefix plus the id
    have hne : get_account_name project_id account_id ≠ [] := by
      rw [get_account_name]
      exact List.append_ne_nil_of_left_ne_nil hpne _
    rw [get_account_id, if_neg hne, get_account_name]
    have hpfx : hasPfx
        (pyStr "providers/" ++ project_id ++ pyStr "/accounts/" ++ account_id)
        (pyStr "providers/" ++ project_id ++ pyStr "/accounts/") = true := by
      rw [hasPfx_iff]
      exact ⟨account_id, by simp [List.append_assoc]⟩
    simp only [hpfx, if_true]
    have hsplit :
        pyStr "providers/" ++ project_id ++ pyStr "/accounts/" ++ account_id
          = (pyStr "providers/" ++ project_id ++ pyStr "/accounts/")
              ++ account_id := by
      simp [List.append_assoc]
    rw [hsplit, List.drop_left]
  · intro hns
    have h2 := entitlement_name_last project_id entitlement_id
    rw [h2, pySplit_eq_single '/' entitlement_id hns]
    rfl
  · exact entitlement_name_last project_id entitlement_id

/-- Claim C10 witness: the round-trips evaluated at concrete ids. -/
theorem roundtrip_resource_names_witness :
    get_account_id (pyStr "proj")
        (get_account_name (pyStr "proj") (pyStr "acct-1")) = pyStr "acct-1" ∧
    get_entitlement_id
        (_get_entitlement_name (pyStr "proj") (pyStr "ent-9")) = pyStr "ent-9" :=
  ⟨(roundtrip_resource_names (pyStr "proj") (pyStr "acct-1") (pyStr "ent-9")).1,
   (roundtrip_resource_names (pyStr "proj") (pyStr "acct-1") (pyStr "ent-9")).2.1
     (by decide)⟩

/-- Claim C8: `list_entitlements` filter-string construction.  A non-empty
state alone yields exactly `state=X`; a non-empty state with a non-empty
account id yields exactly `state=X account=Y`, state first, joined by one
space; with neither, the filter is absent. -/
theorem list_entitlements_filter_spec (state a : Str) :
    (state ≠ [] →
      list_entitlements_filter state none = some (pyStr "state=" ++ state)) ∧
    (state ≠ [] → a ≠ [] →
      list_entitlements_filter state (some a)
        = some (pyStr "state=" ++ state ++ pyStr " account=" ++ a)) ∧
    list_entitlements_filter [] none = none := by
  refine ⟨?_, ?_, ?_⟩
  · intro hs
    simp only [list_entitlements_filter, hs, ne_eq, not_false_iff, if_true]
    simp [List.intercalate]
  · intro hs ha
    simp only [list_entitlements_filter, hs, ha, ne_eq, not_false_iff, if_true]
    simp [List.intercalate, List.intersperse, List.append_assoc]
    rfl
  · rfl

/-- Claim C8 witness: the three filter shapes at concrete inputs. -/
theorem list_entitlements_filter_witness :
    list_entitlements_filter (pyStr "ACTIVE") none
      = some (pyStr "state=" ++ pyStr "ACTIVE") ∧
    list_entitlements_filter (pyStr "ACTIVE") (some (pyStr "acct-1"))
      = some (pyStr "state=" ++ pyStr "ACTIVE" ++ pyStr " account="
          ++ pyStr "acct-1") :=
  ⟨(list_entitlements_filter_spec (pyStr "ACTIVE") (pyStr "acct-1")).1
     (by decide),
   (list_entitlements_filter_spec (pyStr "ACTIVE") (pyStr "acct-1")).2.1
     (by decide) (by decide)⟩

/-- Claim C5: `is_account_approved` returns false for every account without
a `signup` approval (including a missing or empty account and an empty
approvals list), true exactly when the `signup` approval has state
`APPROVED`, and false for `PENDING` or any other state.  The claim assumes
the documented invariant that at most one approval named `signup` is
meaningful, taken here as the hypothesis that the approvals list holds at
most one entry named `signup`.  The function is a total Lean function over
its whole input domain, hence deterministic and side-effect free. -/
theorem is_account_approved_spec (account : Option Account)
    (huniq : ∀ acct approvals, account = some acct →
      acct.approvals = some approvals →
      (List.filter (fun ap => ap.name = some (pyStr "signup"))
        approvals).length ≤ 1) :
    is_account_approved account = true ↔
      ∃ acct approvals ap, account = some acct ∧
        acct.approvals = some approvals ∧ ap ∈ approvals ∧
        ap.name = some (pyStr "signup") ∧
        ap.state = some (pyStr "APPROVED") := by
  cases account with
  | none =>
    simp [is_account_approved]
  | some acct =>
    cases happ : acct.approvals with
    | none =>
      simp [is_account_approved, happ]
    | some approvals =>
      have huniq' := huniq acct approvals rfl happ
      by_cases hemp : approvals = []
      · subst hemp
        simp [is_account_approved, happ]
      · rw [is_account_approved]
        simp only [happ, hemp, if_false]
        cases hfind : approvals.find?
            (fun ap => ap.name = some (pyStr "signup")) with
        | none =>
          have hnone : ∀ ap ∈ approvals,
              ¬ ap.name = some (pyStr "signup") := by
            intro ap hap
            have := List.find?_eq_none.mp hfind ap hap
            simpa using this
          constructor
          · intro h
            exact absurd h (by simp)
          · rintro ⟨acct', approvals', ap, hacct, happ', hap, hname, -⟩
            obtain rfl : acct' = acct := (Option.some.inj hacct).symm
            rw [happ] at happ'
            obtain rfl : approvals' = approvals := (Option.some.inj happ').symm
            exact absurd hname (hnone ap hap)
        | some approval =>
          have hmem : approval ∈ approvals := List.mem_of_find?_eq_some hfind
          have hname : approval.name = some (pyStr "signup") := by
            have := List.find?_some hfind
            simpa using this
          constructor
          · intro h
            refine ⟨acct, approvals, approval, rfl, happ, hmem, hname, ?_⟩
            by_cases hpend : approval.state = some (pyStr "PENDING")
            · simp [hpend] at h
            · by_cases happr : approval.state = some (pyStr "APPROVED")
              · exact happr
              · simp [hpend, happr] at h
          · rintro ⟨acct', approvals', ap, hacct, happ', hap, hapname, hapstate⟩
            have hA : acct' = acct := (Option.some.inj hacct).symm
            rw [hA, happ] at happ'
            have hAE : approvals' = approvals := (Option.some.inj happ').symm
            rw [hAE] at hap
            -- both `ap` and `approval` sit in the signup filter, which has
            -- at most one element, so they coincide
            have hap_f : ap ∈ List.filter
                (fun x => x.name = some (pyStr "signup")) approvals :=
              List.mem_filter.mpr ⟨hap, by simp [hapname]⟩
            have happroval_f : approval ∈ List.filter
                (fun x => x.name = some (pyStr "signup")) approvals :=
              List.mem_filter.mpr ⟨hmem, by simp [hname]⟩
            have heq : ap = approval := by
              cases hfl : List.filter
                  (fun x => x.name = some (pyStr "signup")) approvals with
              | nil =>
                rw [hfl] at hap_f
                exact absurd hap_f (by simp)
              | cons x xs =>
                cases xs with
                | nil =>
                  rw [hfl] at hap_f happroval_f
                  simp only [List.mem_singleton] at hap_f happroval_f
                  rw [hap_f, happroval_f]
                | cons y ys =>
                  rw [hfl] at huniq'
                  simp at huniq'
            rw [heq] at hapstate
            simp only [hapstate]
            decide

/-- Claim C5 witness: a concrete approved account, and concrete rejected
shapes (missing account, empty approvals, pending signup). -/
theorem is_account_approved_witness :
    is_account_approved
      (some ⟨some [⟨some (pyStr "signup"), some (pyStr "APPROVED")⟩]⟩)
      = true ∧
    is_account_approved none = false ∧
    is_account_approved (some ⟨some []⟩) = false ∧
    is_account_approved
      (some ⟨some [⟨some (pyStr "signup"), some (pyStr "PENDING")⟩]⟩)
      = false := by
  refine ⟨?_, by decide, by decide, by decide⟩
  refine (is_account_approved_spec
    (some ⟨some [⟨some (pyStr "signup"), some (pyStr "APPROVED")⟩]⟩)
    ?_).mpr
    ⟨_, _, ⟨some (pyStr "signup"), some (pyStr "APPROVED")⟩, rfl, rfl,
      by decide, rfl, rfl⟩
  intro acct approvals h1 h2
  obtain rfl : acct =
      (⟨some [⟨some (pyStr "signup"), some (pyStr "APPROVED")⟩]⟩ : Account) :=
    (Option.some.inj h1).symm
  obtain rfl : approvals =
      [⟨some (pyStr "signup"), some (pyStr "APPROVED")⟩] :=
    (Option.some.inj h2).symm
  decide

/-- Claim C3: `handle_entitlement` is a terminal no-op with a log — no
remote write, notification or publish, and a normal return — whenever the
event is falsy or carries no id, the event type is empty, or the
entitlement is not found in the procurement service (the designed
idempotence guard).  The conclusion holds for every environment, so in
particular irrespective of any remote behaviour past the failing guard. -/
theorem handle_entitlement_guards (event : Option EventMsg) (event_type : Str)
    (env : Env) (settings : Str → Option ProductSettings) (publisher : Bool)
    (h : event = none ∨
      (∃ ev, event = some ev ∧ ev.id = none) ∨
      event_type = [] ∨
      (∃ ev eid, event = some ev ∧ ev.id = some eid ∧
        env.get_entitlement_r eid = .ok none)) :
    handle_entitlement event event_type env settings publisher = ([], true) := by
  rcases h with h | ⟨ev, hev, hid⟩ | h | ⟨ev, eid, hev, hid, hfetch⟩
  · rw [h, handle_entitlement.eq_def]
  · rw [hev, handle_entitlement.eq_def]
    simp only [hid]
  · rw [handle_entitlement.eq_def]
    cases event with
    | none => rfl
    | some ev =>
      cases hid : ev.id with
      | none => simp [hid]
      | some eid => simp [hid, h]
  · rw [hev, handle_entitlement.eq_def]
    simp only [hid]
    by_cases het : event_type = []
    · simp [het]
    · simp only [het, if_false]
      by_cases heid : eid = []
      · simp [api_get_entitlement, heid]
      · simp [api_get_entitlement, heid, hfetch]

/-- Claim C3 witness: the three guards evaluated on concrete inputs (an
event without id, an empty event type, and an entitlement the procurement
service does not know). -/
theorem handle_entitlement_guards_witness :
    handle_entitlement (some ⟨none⟩) (pyStr "ENTITLEMENT_ACTIVE")
      ⟨pyStr "p", fun _ => .ok none, fun _ => .ok none, true, true, false⟩
      (fun _ => none) true = ([], true) ∧
    handle_entitlement (some ⟨some (pyStr "e1")⟩) []
      ⟨pyStr "p", fun _ => .ok none, fun _ => .ok none, true, true, false⟩
      (fun _ => none) true = ([], true) ∧
    handle_entitlement (some ⟨some (pyStr "e1")⟩) (pyStr "ENTITLEMENT_ACTIVE")
      ⟨pyStr "p", fun _ => .ok none, fun _ => .ok none, true, true, false⟩
      (fun _ => none) true = ([], true) :=
  ⟨handle_entitlement_guards _ _ _ _ _ (Or.inr (Or.inl ⟨_, rfl, rfl⟩)),
   handle_entitlement_guards _ _ _ _ _ (Or.inr (Or.inr (Or.inl rfl))),
   handle_entitlement_guards _ _ _ _ _
     (Or.inr (Or.inr (Or.inr ⟨_, _, rfl, rfl, rfl⟩)))⟩

/-- Claim C2: for every event type (non-empty, including
`ENTITLEMENT_CANCELLED`) and every entitlement state, when the account
fetched for the entitlement's account reference is not approved,
`handle_entitlement` returns before the dispatch table: no entitlement
approval, no plan-change approval, no email or Slack notification and no
change-event publish is performed, and the handler returns normally. -/
theorem handle_entitlement_account_gate (env : Env)
    (settings : Str → Option ProductSettings) (publisher : Bool)
    (ev : EventMsg) (event_type eid : Str) (ent : Entitlement) (pn : Str)
    (ps : ProductSettings) (aref : Str) (acctOpt : Option Account)
    (het : event_type ≠ [])
    (hid : ev.id = some eid)
    (hfetch : api_get_entitlement env eid = .ok (some ent))
    (hprod : ent.product = some pn)
    (hset : settings ((pySplit '.' pn).headD []) = some ps)
    (hacc : ent.account = some aref)
    (hafetch : api_get_account env (get_account_id env.project_id aref)
      = .ok acctOpt)
    (hnotapp : is_account_approved acctOpt = false) :
    handle_entitlement (some ev) event_type env settings publisher
      = ([], true) := by
  rw [handle_entitlement.eq_def]
  simp only [hid, het, if_false, hfetch, hprod, hset, hacc, hafetch, hnotapp,
    Bool.false_eq_true, not_false_eq_true, if_true]

/-- Concrete fetched entitlement used by the claim C2 witness. -/
def entC2 : Entitlement :=
  ⟨none, some (pyStr "prod.x"), some (pyStr "providers/p/accounts/a1"),
    some (pyStr "ENTITLEMENT_CANCELLED"), none⟩

/-- Concrete unapproved account used by the claim C2 witness. -/
def acctC2 : Account :=
  ⟨some [⟨some (pyStr "signup"), some (pyStr "PENDING")⟩]⟩

/-- Concrete environment used by the claim C2 witness. -/
def envC2 : Env :=
  ⟨pyStr "p", fun _ => .ok (some entC2), fun _ => .ok (some acctC2), true, true, false⟩

/-- Concrete product settings used by the claim C2 witness. -/
def psC2 : ProductSettings :=
  ⟨some (pyStr "topic"), true, [pyStr "ops@example.com"],
    some (pyStr "hook")⟩

/-- Claim C2 witness: a cancellation event for an entitlement whose account
has only a pending signup approval performs nothing. -/
theorem handle_entitlement_account_gate_witness :
    handle_entitlement (some ⟨some (pyStr "e1")⟩)
      (pyStr "ENTITLEMENT_CANCELLED") envC2 (fun _ => some psC2) true
      = ([], true) :=
  handle_entitlement_account_gate envC2 (fun _ => some psC2) true
    ⟨some (pyStr "e1")⟩ (pyStr "ENTITLEMENT_CANCELLED") (pyStr "e1")
    entC2 (pyStr "prod.x") psC2 (pyStr "providers/p/accounts/a1")
    (some acctC2) (by decide) rfl rfl rfl rfl rfl rfl (by decide)

/-- Concrete fetched entitlement used by the claim C1 counterexample and
witness. -/
def entC1 : Entitlement :=
  ⟨none, some (pyStr "prod.x"), some (pyStr "providers/p/accounts/a1"),
    some (pyStr "ENTITLEMENT_ACTIVATION_REQUESTED"), none⟩

/-- Concrete approved account used by the claim C1 counterexample and
witness. -/
def acctC1 : Account :=
  ⟨some [⟨some (pyStr "signup"), some (pyStr "APPROVED")⟩]⟩

/-- Concrete environment used by the claim C1 counterexample and witness. -/
def envC1 : Env :=
  ⟨pyStr "p", fun _ => .ok (some entC1), fun _ => .ok (some acctC1), true, true, false⟩

/-- Product settings with auto-approval on but no email recipients and no
Slack webhook, used by the claim C1 counterexample. -/
def psC1bare : ProductSettings := ⟨none, true, [], none⟩

/-- Claim C1 counterexample: a `CREATION_REQUESTED` event with state
`ACTIVATION_REQUESTED`, an approved account and `auto_approve_entitlements`
on, but with no email recipients and no Slack webhook configured.  The
entitlement is approved exactly once, yet no notification of any kind is
attempted, refuting the claim's unconditional "a notification is
attempted". -/
theorem handle_entitlement_creation_no_notification :
    (handle_entitlement (some ⟨some (pyStr "e1")⟩)
        (pyStr "ENTITLEMENT_CREATION_REQUESTED") envC1
        (fun _ => some psC1bare) true).1
      = [Effect.approveEntitlement (pyStr "e1")] ∧
    ((handle_entitlement (some ⟨some (pyStr "e1")⟩)
        (pyStr "ENTITLEMENT_CREATION_REQUESTED") envC1
        (fun _ => some psC1bare) true).1.countP isNotification) = 0 := by
  constructor <;> rfl

/-- Claim C1 (amended): for a `CREATION_REQUESTED` event whose freshly
fetched entitlement has state `ACTIVATION_REQUESTED` and whose account is
approved, with `auto_approve_entitlements` true and the remote approval
write returning, the handler calls `approve_entitlement` exactly once, with
the event's entitlement id, as the first effect — so the approval precedes
every notification attempt and, the environment (including `email_raises`)
being arbitrary, is independent of notification failures; a notification is
then attempted exactly when email recipients or a Slack webhook are
configured (the original claim said unconditionally).  When the approval
write raises, the attempted approval is the only effect: the notifications
after it never run and the exception escapes the handler.  With
`auto_approve_entitlements` false no approval call is made and the handler
returns normally. -/
theorem handle_entitlement_creation_requested (env : Env)
    (settings : Str → Option ProductSettings) (publisher : Bool)
    (ev : EventMsg) (eid : Str) (ent : Entitlement) (pn : Str)
    (ps : ProductSettings) (aref : Str) (acctOpt : Option Account)
    (r : List Effect × Bool)
    (hid : ev.id = some eid)
    (hfetch : api_get_entitlement env eid = .ok (some ent))
    (hprod : ent.product = some pn)
    (hset : settings ((pySplit '.' pn).headD []) = some ps)
    (hacc : ent.account = some aref)
    (hafetch : api_get_account env (get_account_id env.project_id aref)
      = .ok acctOpt)
    (happr : is_account_approved acctOpt = true)
    (hstate : ent.state = some (pyStr "ENTITLEMENT_ACTIVATION_REQUESTED"))
    (hr : handle_entitlement (some ev)
      (pyStr "ENTITLEMENT_CREATION_REQUESTED") env settings publisher = r) :
    (ps.auto_approve_entitlements = true →
      env.approve_entitlement_ok = true →
      r.1.countP isApprove = 1 ∧
      (∀ e ∈ r.1, isApprove e = true → e = .approveEntitlement eid) ∧
      (∃ rest, r.1 = .approveEntitlement eid :: rest ∧
        ∀ e ∈ rest, isNotification e = true) ∧
      (r.1.countP isNotification ≠ 0 ↔
        (ps.email_recipients ≠ [] ∨ optTruthy ps.slack_webhook = true)) ∧
      r.2 = true) ∧
    (ps.auto_approve_entitlements = true →
      env.approve_entitlement_ok = false →
      r = ([.approveEntitlement eid], false)) ∧
    (ps.auto_approve_entitlements = false →
      r.1.countP isApprove = 0 ∧ r.2 = true) := by
  have hetne : pyStr "ENTITLEMENT_CREATION_REQUESTED" ≠ ([] : Str) := by decide
  have hred : handle_entitlement (some ev)
      (pyStr "ENTITLEMENT_CREATION_REQUESTED") env settings publisher
      = handle_entitlement.handle_entitlement_dispatch
          (pyStr "ENTITLEMENT_CREATION_REQUESTED") eid
          { ent with id := some eid }
          (pyStr "ENTITLEMENT_ACTIVATION_REQUESTED") ps publisher
          env.approve_entitlement_ok env.approve_plan_change_ok := by
    rw [handle_entitlement.eq_def]
    simp only [hid, hetne, if_false, hfetch, hprod, hset, hacc, hafetch,
      happr, hstate, eq_self_iff_true, not_true]
  have hnotif : ∀ tr, tr =
      ((if ps.email_recipients ≠ [] then
          [Effect.email (pyStr "New Entitlement Creation Request")
            { ent with id := some eid }]
        else []) ++
       (match ps.slack_webhook with
        | some w => if w = [] then []
          else [Effect.slack w { ent with id := some eid }]
        | none => [])) →
      (∀ e ∈ tr, isNotification e = true) ∧
      (tr.countP isNotification ≠ 0 ↔
        (ps.email_recipients ≠ [] ∨ optTruthy ps.slack_webhook = true)) ∧
      tr.countP isApprove = 0 := by
    rintro tr rfl
    rcases hsw : ps.slack_webhook with _ | w <;>
      by_cases hrec : ps.email_recipients = []
    · simp [hrec, hsw, isApprove, isNotification, optTruthy,
        List.forall_mem_cons]
    · simp [hrec, hsw, isApprove, isNotification, optTruthy,
        List.forall_mem_cons]
    · by_cases hw : w = [] <;>
        simp [hrec, hsw, hw, isApprove, isNotification, optTruthy,
          List.forall_mem_cons]
    · by_cases hw : w = [] <;>
        simp [hrec, hsw, hw, isApprove, isNotification, optTruthy,
          List.forall_mem_cons]
  refine ⟨?_, ?_, ?_⟩
  · intro hauto hok
    have hshape : r =
        (Effect.approveEntitlement eid ::
          ((if ps.email_recipients ≠ [] then
              [Effect.email (pyStr "New Entitlement Creation Request")
                { ent with id := some eid }]
            else []) ++
           (match ps.slack_webhook with
            | some w => if w = [] then []
              else [Effect.slack w { ent with id := some eid }]
            | none => [])), true) := by
      rw [← hr, hred, handle_entitlement.handle_entitlement_dispatch]
      simp only [if_pos rfl, hauto, hok, if_true, send_slack_message]
      rcases ps.slack_webhook with _ | w
      · simp
      · by_cases hw : w = [] <;> simp [hw]
    obtain ⟨hmem, hiff, hzero⟩ := hnotif _ rfl
    rw [hshape]
    refine ⟨?_, ?_, ⟨_, rfl, hmem⟩, ?_, rfl⟩
    · simp only [List.countP_cons, isApprove]
      rw [hzero]
      simp
    · intro e he hap
      rcases List.mem_cons.mp he with rfl | he
      · rfl
      · have := hmem e he
        cases e <;> simp [isApprove] at hap <;>
          simp [isNotification] at this
    · rw [List.countP_cons]
      simpa [isNotification] using hiff
  · intro hauto hok
    rw [← hr, hred, handle_entitlement.handle_entitlement_dispatch]
    simp only [if_pos rfl, hauto, hok, Bool.false_eq_true, if_false, if_true]
  · intro hauto
    have hshape : r =
        ((if ps.email_recipients ≠ [] then
            [Effect.email (pyStr "New Entitlement Creation Request")
              { ent with id := some eid }]
          else []) ++
         (match ps.slack_webhook with
          | some w => if w = [] then []
            else [Effect.slack w { ent with id := some eid }]
          | none => []), true) := by
      rw [← hr, hred, handle_entitlement.handle_entitlement_dispatch]
      simp only [if_pos rfl, hauto, Bool.false_eq_true, if_false,
        send_slack_message]
      rcases ps.slack_webhook with _ | w
      · simp
      · by_cases hw : w = [] <;> simp [hw]
    obtain ⟨-, -, hzero⟩ := hnotif _ rfl
    rw [hshape]
    exact ⟨hzero, rfl⟩

/-- Product settings with auto-approval on and an email recipient
configured, used by the claim C1 witness. -/
def psC1full : ProductSettings := ⟨none, true, [pyStr "ops@example.com"], none⟩

/-- Claim C1 witness: with a recipient configured, the concrete event is
approved exactly once and a notification is attempted. -/
theorem handle_entitlement_creation_requested_witness :
    (handle_entitlement (some ⟨some (pyStr "e1")⟩)
        (pyStr "ENTITLEMENT_CREATION_REQUESTED") envC1
        (fun _ => some psC1full) true).1.countP isApprove = 1 ∧
    (handle_entitlement (some ⟨some (pyStr "e1")⟩)
        (pyStr "ENTITLEMENT_CREATION_REQUESTED") envC1
        (fun _ => some psC1full) true).1.countP isNotification ≠ 0 := by
  have h := handle_entitlement_creation_requested envC1
    (fun _ => some psC1full) true ⟨some (pyStr "e1")⟩ (pyStr "e1") entC1
    (pyStr "prod.x") psC1full (pyStr "providers/p/accounts/a1")
    (some acctC1) _ rfl rfl rfl rfl rfl rfl (by decide) rfl rfl
  exact ⟨(h.1 rfl rfl).1, (h.1 rfl rfl).2.2.2.1.mpr (Or.inl (by decide))⟩

/-- Claim C4: for an `ACTIVE` event whose fetched entitlement has state
`ACTIVE` (account approved), with a truthy `event_topic` configured and a
publisher supplied, exactly one change event is published and its payload is
the object `{event: "create", entitlement: <the fetched entitlement, with
its id field set>}`; with no `event_topic` configured there are zero
publishes and the handler returns normally, whatever the publisher. -/
theorem handle_entitlement_active_publish (env : Env)
    (settings : Str → Option ProductSettings)
    (ev : EventMsg) (eid : Str) (ent : Entitlement) (pn : Str)
    (ps : ProductSettings) (aref : Str) (acctOpt : Option Account)
    (hid : ev.id = some eid)
    (hfetch : api_get_entitlement env eid = .ok (some ent))
    (hprod : ent.product = some pn)
    (hset : settings ((pySplit '.' pn).headD []) = some ps)
    (hacc : ent.account = some aref)
    (hafetch : api_get_account env (get_account_id env.project_id aref)
      = .ok acctOpt)
    (happr : is_account_approved acctOpt = true)
    (hstate : ent.state = some (pyStr "ENTITLEMENT_ACTIVE")) :
    (∀ topic, ps.event_topic = some topic → topic ≠ [] →
      handle_entitlement (some ev) (pyStr "ENTITLEMENT_ACTIVE") env settings
        true
        = ([Effect.publish topic (pyStr "create") { ent with id := some eid }],
           true)) ∧
    (optTruthy ps.event_topic = false →
      ∀ publisher,
        handle_entitlement (some ev) (pyStr "ENTITLEMENT_ACTIVE") env settings
          publisher = ([], true)) := by
  have hetne : pyStr "ENTITLEMENT_ACTIVE" ≠ ([] : Str) := by decide
  have hne1 : pyStr "ENTITLEMENT_ACTIVE"
      ≠ pyStr "ENTITLEMENT_CREATION_REQUESTED" := by decide
  constructor
  · intro topic htopic htne
    rw [handle_entitlement.eq_def]
    simp only [hid, hetne, if_false, hfetch, hprod, hset, hacc, hafetch,
      happr, hstate]
    rw [handle_entitlement.handle_entitlement_dispatch]
    simp only [hne1, if_false, if_pos rfl, htopic]
    simp [optTruthy, htne, notify]
  · intro hnotop publisher
    rw [handle_entitlement.eq_def]
    simp only [hid, hetne, if_false, hfetch, hprod, hset, hacc, hafetch,
      happr, hstate]
    rw [handle_entitlement.handle_entitlement_dispatch]
    simp only [hne1, if_false, if_pos rfl, hnotop]
    simp

/-- Concrete fetched entitlement used by the claim C4 witness. -/
def entC4 : Entitlement :=
  ⟨none, some (pyStr "prod.x"), some (pyStr "providers/p/accounts/a1"),
    some (pyStr "ENTITLEMENT_ACTIVE"), none⟩

/-- Concrete environment used by the claim C4 witness. -/
def envC4 : Env :=
  ⟨pyStr "p", fun _ => .ok (some entC4), fun _ => .ok (some acctC1), true, true, false⟩

/-- Product settings with an event topic, used by the claim C4 witness. -/
def psC4topic : ProductSettings := ⟨some (pyStr "t1"), false, [], none⟩

/-- Product settings without an event topic, used by the claim C4 witness. -/
def psC4bare : ProductSettings := ⟨none, false, [], none⟩

/-- Claim C4 witness: with an event topic, exactly the one `create` publish
with the fetched entitlement as payload; without one, no effect at all. -/
theorem handle_entitlement_active_publish_witness :
    handle_entitlement (some ⟨some (pyStr "e1")⟩) (pyStr "ENTITLEMENT_ACTIVE")
      envC4 (fun _ => some psC4topic) true
      = ([Effect.publish (pyStr "t1") (pyStr "create")
          { entC4 with id := some (pyStr "e1") }], true) ∧
    handle_entitlement (some ⟨some (pyStr "e1")⟩) (pyStr "ENTITLEMENT_ACTIVE")
      envC4 (fun _ => some psC4bare) false
      = ([], true) :=
  ⟨(handle_entitlement_active_publish envC4 (fun _ => some psC4topic)
      ⟨some (pyStr "e1")⟩ (pyStr "e1") entC4 (pyStr "prod.x") psC4topic
      (pyStr "providers/p/accounts/a1") (some acctC1)
      rfl rfl rfl rfl rfl rfl (by decide) rfl).1
      (pyStr "t1") rfl (by decide),
   (handle_entitlement_active_publish envC4 (fun _ => some psC4bare)
      ⟨some (pyStr "e1")⟩ (pyStr "e1") entC4 (pyStr "prod.x") psC4bare
      (pyStr "providers/p/accounts/a1") (some acctC1)
      rfl rfl rfl rfl rfl rfl (by decide) rfl).2 rfl false⟩

/-- Every branch of the webhook handler acknowledges with status 200 and an
empty JSON body; only the dispatch list varies. -/
theorem handle_subscription_message_shape (body : Option Json)
    (decodeData : Json → Option Json) :
    ∃ calls, handle_subscription_message body decodeData
      = (200, Json.obj [], calls) := by
  rw [handle_subscription_message.eq_def]
  repeat' split
  all_goals exact ⟨_, rfl⟩

/-- Claim C6: every request to `POST /v1/notification` is answered with
HTTP 200 and an empty JSON body — including an unparsable request body, a
falsy or non-dict envelope, a missing `message` or `data` field, a
malformed base64/JSON payload, an unrecognized decoded shape, and any
exception raised while processing (the modelled function is total, so every
branch is covered by the universally quantified first two conjuncts).
Additionally, zero downstream handler dispatches are performed on the
malformed-envelope paths and when the payload fails to decode. -/
theorem handle_subscription_message_acks (body : Option Json)
    (decodeData : Json → Option Json) :
    (handle_subscription_message body decodeData).1 = 200 ∧
    (handle_subscription_message body decodeData).2.1 = Json.obj [] ∧
    (body = none →
      (handle_subscription_message body decodeData).2.2 = []) ∧
    (∀ envelope, body = some envelope → jsonTruthy envelope = false →
      (handle_subscription_message body decodeData).2.2 = []) ∧
    (∀ env_fields msg_fields message_data,
      body = some (.obj env_fields) →
      jsonGet env_fields (pyStr "message") = some (.obj msg_fields) →
      jsonGet msg_fields (pyStr "data") = some message_data →
      decodeData message_data = none →
      (handle_subscription_message body decodeData).2.2 = []) := by
  obtain ⟨calls, hc⟩ := handle_subscription_message_shape body decodeData
  refine ⟨by rw [hc], by rw [hc], ?_, ?_, ?_⟩
  · intro hb
    rw [hb, handle_subscription_message.eq_def]
  · intro envelope hb ht
    rw [hb, handle_subscription_message.eq_def]
    simp only [ht, Bool.false_eq_true, not_false_eq_true, if_true]
  · intro env_fields msg_fields message_data hb hmsg hdata hdec
    rw [hb, handle_subscription_message.eq_def]
    by_cases ht : jsonTruthy (Json.obj env_fields)
    · simp only [ht, not_true, if_false, hmsg, hdata, hdec]
    · simp only [ht, Bool.false_eq_true, not_false_eq_true, if_true]

/-- Claim C6 witness: a malformed payload (the decode step fails) on an
otherwise well-formed envelope is acknowledged with 200, an empty body and
zero downstream dispatches. -/
theorem handle_subscription_message_acks_witness :
    (handle_subscription_message
        (some (.obj [(pyStr "message",
          .obj [(pyStr "data", .str (pyStr "!!not-base64!!"))])]))
        (fun _ => none)).1 = 200 ∧
    (handle_subscription_message
        (some (.obj [(pyStr "message",
          .obj [(pyStr "data", .str (pyStr "!!not-base64!!"))])]))
        (fun _ => none)).2.2 = [] := by
  have h := handle_subscription_message_acks
    (some (.obj [(pyStr "message",
      .obj [(pyStr "data", .str (pyStr "!!not-base64!!"))])]))
    (fun _ => none)
  exact ⟨h.1, h.2.2.2.2 _ _ _ rfl rfl rfl rfl⟩

/-- Inversion of a successful JWT verification: success forces every check
to have passed — trusted issuer, a certificate for the key-id, a verified
decode, and a non-empty subject. -/
theorem verify_marketplace_jwt_ok_inversion (jenv : JwtEnv) (decoded : Claims)
    (h : verify_marketplace_jwt jenv = .ok decoded) :
    jenv.header_ok = true ∧
    (∃ unverified, jenv.unverified_claims = some unverified ∧
      claimGet unverified (pyStr "iss") = some GOOGLE_CERT_URL) ∧
    (∃ cert_table k c, jenv.certs = some cert_table ∧ jenv.kid = some k ∧
      claimGet cert_table k = some c ∧ c ≠ []) ∧
    jenv.verified_claims = some decoded ∧
    (∃ s, claimGet decoded (pyStr "sub") = some s ∧ s ≠ []) := by
  rw [verify_marketplace_jwt.eq_def] at h
  by_cases hho : jenv.header_ok = true
  · rw [if_neg (not_not_intro hho)] at h
    cases huc : jenv.unverified_claims with
    | none => simp [huc] at h
    | some unverified =>
      simp only [huc] at h
      cases hiss : claimGet unverified (pyStr "iss") with
      | none => simp [hiss] at h
      | some url =>
        simp only [hiss] at h
        by_cases hurl : url = GOOGLE_CERT_URL
        · rw [if_neg (fun hne => hne hurl)] at h
          cases hcerts : jenv.certs with
          | none => simp [hcerts] at h
          | some cert_table =>
            simp only [hcerts] at h
            cases hkid : jenv.kid with
            | none => simp [hkid] at h
            | some k =>
              simp only [hkid] at h
              cases hcert : claimGet cert_table k with
              | none => simp [hcert] at h
              | some c =>
                simp only [hcert] at h
                by_cases hc : c = []
                · rw [if_pos hc] at h
                  simp at h
                · rw [if_neg hc] at h
                  cases hvc : jenv.verified_claims with
                  | none => simp [hvc] at h
                  | some dec =>
                    simp only [hvc] at h
                    cases hsub : claimGet dec (pyStr "sub") with
                    | none => simp [hsub] at h
                    | some s =>
                      simp only [hsub] at h
                      by_cases hs : s = []
                      · rw [if_pos hs] at h
                        simp at h
                      · rw [if_neg hs] at h
                        have hdec : dec = decoded := by
                          injection h
                        subst hdec
                        exact ⟨hho, ⟨unverified, rfl, by rw [hiss, hurl]⟩,
                          ⟨cert_table, k, c, rfl, rfl, hcert, hc⟩,
                          rfl, ⟨s, hsub, hs⟩⟩
        · rw [if_pos hurl] at h
          simp at h
  · rw [if_pos hho] at h
    simp at h

/-- Claim C7: marketplace token verification fails closed.  A token whose
unverified issuer differs from the fixed trusted certificate URL, a key-id
with no (usable) matching certificate, a failed signature/audience check
and a missing or empty subject each force `verify_marketplace_jwt` to raise
an error; and in the activation flow, when the session carries no usable
claims and the supplied token fails verification, the caller receives 401
and no account mutation (`approve_account`) or any other effect is
performed. -/
theorem verify_marketplace_jwt_fails_closed (jenv : JwtEnv)
    (aenv : ActivateEnv) :
    (∀ unverified, jenv.unverified_claims = some unverified →
      claimGet unverified (pyStr "iss") ≠ some GOOGLE_CERT_URL →
      ∃ e, verify_marketplace_jwt jenv = .error e) ∧
    ((∀ cert_table k c, jenv.certs = some cert_table → jenv.kid = some k →
        claimGet cert_table k = some c → c = []) →
      ∃ e, verify_marketplace_jwt jenv = .error e) ∧
    (jenv.verified_claims = none →
      ∃ e, verify_marketplace_jwt jenv = .error e) ∧
    (∀ decoded, jenv.verified_claims = some decoded →
      (claimGet decoded (pyStr "sub") = none ∨
        claimGet decoded (pyStr "sub") = some []) →
      ∃ e, verify_marketplace_jwt jenv = .error e) ∧
    ((aenv.session_claims = none ∨
        (∃ c, aenv.session_claims = some c ∧
          claimGet c (pyStr "sub") = none)) →
      aenv.form_token = true →
      (∃ e, verify_marketplace_jwt aenv.jwt = .error e) →
      activate aenv = (401, [])) := by
  refine ⟨?_, ?_, ?_, ?_, ?_⟩
  · intro unverified huc hne
    cases hv : verify_marketplace_jwt jenv with
    | error e => exact ⟨e, rfl⟩
    | ok d =>
      obtain ⟨-, ⟨u', hu', hiss⟩, -, -, -⟩ :=
        verify_marketplace_jwt_ok_inversion jenv d hv
      rw [huc] at hu'
      obtain rfl : u' = unverified := (Option.some.inj hu').symm
      exact absurd hiss hne
  · intro hbad
    cases hv : verify_marketplace_jwt jenv with
    | error e => exact ⟨e, rfl⟩
    | ok d =>
      obtain ⟨-, -, ⟨cert_table, k, c, htbl, hk, hc, hcne⟩, -, -⟩ :=
        verify_marketplace_jwt_ok_inversion jenv d hv
      exact absurd (hbad cert_table k c htbl hk hc) hcne
  · intro hvc
    cases hv : verify_marketplace_jwt jenv with
    | error e => exact ⟨e, rfl⟩
    | ok d =>
      obtain ⟨-, -, -, hsome, -⟩ :=
        verify_marketplace_jwt_ok_inversion jenv d hv
      rw [hvc] at hsome
      cases hsome
  · intro decoded hvc hsub
    cases hv : verify_marketplace_jwt jenv with
    | error e => exact ⟨e, rfl⟩
    | ok d =>
      obtain ⟨-, -, -, hsome, ⟨s, hs, hsne⟩⟩ :=
        verify_marketplace_jwt_ok_inversion jenv d hv
      rw [hvc] at hsome
      obtain rfl : d = decoded := (Option.some.inj hsome).symm
      rcases hsub with h1 | h1
      · rw [h1] at hs
        cases hs
      · rw [h1] at hs
        exact absurd (Option.some.inj hs).symm hsne
  · rintro hsess htok ⟨e, hverr⟩
    rcases hsess with hnone | ⟨c, hcs, hsub⟩
    · rw [activate.eq_def]
      simp only [hnone, htok, hverr, if_true]
    · rw [activate.eq_def]
      simp only [hcs, hsub, htok, hverr, if_true, Option.isSome_none,
        Bool.false_eq_true, if_false]

/-- JWT oracle describing a token with an untrusted issuer and no verified
decode, used by the claim C7 witness. -/
def jenvC7 : JwtEnv :=
  ⟨true, none, some [(pyStr "iss", pyStr "https://evil.example")], none, none⟩

/-- Activation environment holding that token and no session claims, used by
the claim C7 witness. -/
def aenvC7 : ActivateEnv := ⟨none, true, jenvC7, true, none, true, true⟩

/-- Claim C7 witness: the wrong-issuer token is rejected, and the activation
flow answers 401 without performing any procurement effect. -/
theorem verify_marketplace_jwt_fails_closed_witness :
    (∃ e, verify_marketplace_jwt jenvC7 = .error e) ∧
    activate aenvC7 = (401, []) := by
  have h := verify_marketplace_jwt_fails_closed jenvC7 aenvC7
  exact ⟨h.1 [(pyStr "iss", pyStr "https://evil.example")] rfl (by decide),
    h.2.2.2.2 (Or.inl rfl) rfl ⟨.invalidIssuer, rfl⟩⟩

/-- Folding "keep the id of each element" over a non-empty list yields the
id derived from the last element, whatever the initial accumulator. -/
theorem foldl_keep_last (f : Str → Str) (n : Str) (ns : List Str)
    (init : Option Str) :
    (n :: ns).foldl (fun _ m => some (f m)) init
      = some (f ((n :: ns).getLastD [])) := by
  induction ns generalizing n init with
  | nil => rfl
  | cons m ms ih =>
    rw [List.foldl_cons, ih]
    have h1 : (n :: m :: ms).getLastD ([] : Str) = (m :: ms).getLastD n :=
      List.getLastD_cons _ _ _
    have h2 : (m :: ms).getLastD n = (m :: ms).getLastD ([] : Str) :=
      getLastD_cons_default_irrel m ms n []
    rw [h1, h2]

/-- Concrete activation environment whose one pending entitlement has a name
ending in a slash, used by the claim C9 counterexample: the derived id is
the empty string, so no entitlement is approved even though the pending
list is non-empty and auto-approval is on. -/
def aenvC9 : ActivateEnv :=
  ⟨some [(pyStr "sub", pyStr "a1")], false, ⟨true, none, none, none, none⟩,
    true, some [pyStr "providers/p/entitlements/"], true, true⟩

/-- Claim C9 counterexample: auto-approval is enabled and the account has a
pending entitlement-creation request, yet no entitlement is approved — the
id derived from the last element is falsy (empty), so the claim's "the
entitlement approved is the one whose id is derived from the last element"
fails at this input. -/
theorem activate_last_entitlement_counterexample :
    aenvC9.auto_approve_entitlements = true ∧
    aenvC9.list_entitlements_names = some [pyStr "providers/p/entitlements/"] ∧
    activate aenvC9 = (200, [Effect.approveAccount (pyStr "a1")]) :=
  ⟨rfl, rfl, rfl⟩

/-- Claim C9 (amended): in the activation flow with auto-approval enabled
and successful remote calls, the only entitlement ever approved is the one
whose id is derived from the last element of the returned entitlements list
(the loop overwrites the id on each iteration); when that derived id is
non-empty it is approved together with the account, when it is empty — and
likewise when the list is empty or the lookup raises — only the account is
approved. -/
theorem activate_approves_last_entitlement (env : ActivateEnv) (c : Claims)
    (a : Str)
    (hsess : env.session_claims = some c)
    (hsub : claimGet c (pyStr "sub") = some a)
    (ha : a ≠ [])
    (hacct : env.approve_account_ok = true)
    (hent : env.approve_entitlement_ok = true)
    (hauto : env.auto_approve_entitlements = true) :
    (env.list_entitlements_names = none →
      activate env = (200, [.approveAccount a])) ∧
    (∀ names, env.list_entitlements_names = some names →
      (names = [] → activate env = (200, [.approveAccount a])) ∧
      (names ≠ [] →
        (get_entitlement_id (names.getLastD []) ≠ [] →
          activate env = (200, [.approveAccount a,
            .approveEntitlement (get_entitlement_id (names.getLastD []))])) ∧
        (get_entitlement_id (names.getLastD []) = [] →
          activate env = (200, [.approveAccount a])))) := by
  constructor
  · intro hlist
    rw [activate.eq_def]
    simp only [hsess, hsub, Option.isSome_some, if_true, Option.getD_some,
      ha, if_false, hacct, not_true, get_entitlement_id_for_account, hlist]
  · intro names hlist
    constructor
    · intro hnil
      subst hnil
      rw [activate.eq_def]
      simp only [hsess, hsub, Option.isSome_some, if_true, Option.getD_some,
        ha, if_false, hacct, not_true, get_entitlement_id_for_account, hlist,
        List.foldl_nil]
    · intro hne
      cases names with
      | nil => exact absurd rfl hne
      | cons n ns =>
        have hfold := foldl_keep_last get_entitlement_id n ns none
        constructor
        · intro heid
          rw [activate.eq_def]
          simp only [hsess, hsub, Option.isSome_some, if_true,
            Option.getD_some, ha, if_false, hacct, not_true,
            get_entitlement_id_for_account, hlist, hfold, hauto, heid,
            ne_eq, not_false_iff, and_true, true_and, if_true, hent]
        · intro heid
          rw [activate.eq_def]
          simp only [hsess, hsub, Option.isSome_some, if_true,
            Option.getD_some, ha, if_false, hacct, not_true,
            get_entitlement_id_for_account, hlist, hfold, hauto, heid,
            ne_eq, not_true, and_false, if_false]

/-- Claim C9 witness: with two pending entitlements, the one approved is
derived from the last name in the list. -/
theorem activate_approves_last_entitlement_witness :
    activate ⟨some [(pyStr "sub", pyStr "a1")], false,
        ⟨true, none, none, none, none⟩, true,
        some [pyStr "providers/p/entitlements/e1",
              pyStr "providers/p/entitlements/e2"], true, true⟩
      = (200, [Effect.approveAccount (pyStr "a1"),
               Effect.approveEntitlement (pyStr "e2")]) := by
  have h := activate_approves_last_entitlement
    ⟨some [(pyStr "sub", pyStr "a1")], false,
      ⟨true, none, none, none, none⟩, true,
      some [pyStr "providers/p/entitlements/e1",
            pyStr "providers/p/entitlements/e2"], true, true⟩
    [(pyStr "sub", pyStr "a1")] (pyStr "a1")
    rfl rfl (by decide) rfl rfl rfl
  have h2 := ((h.2 [pyStr "providers/p/entitlements/e1",
    pyStr "providers/p/entitlements/e2"] rfl).2 (by decide)).1 (by decide)
  simpa using h2
